import Mathlib

/-!
Verification of the WolkAbout IoT connector core (src/iot.py) against its
natural-language specification.

The embedding models the connector state (`Wolk`), the bounded outbound
message buffer (`MessageQueue`), the drain loop (`Wolk.publish`, embedded via
`drainStep`/`publishDrain`), the side-effect publishers
(`publish_actuator_status`, `publish_configuration`), and the inbound
dispatcher (`on_inbound_message`).

External collaborators (the codec predicates/parsers and the message factory,
spec §6) are modelled as abstract function fields; the transport is modelled
by its observable behaviour: a boolean outcome per publish call.  Side effects
on the outside world (handler invocations, transport publishes, buffer puts)
are recorded in an explicit `Event` trace.
-/

namespace WolkIoT

/-- Sensor reading model, from src/wolk/model/sensor_reading.py: a reference,
an opaque value and an optional Unix timestamp. -/
structure SensorReading where
  reference : String
  value : Int
  timestamp : Option Int
deriving Repr, DecidableEq

/-- Alarm model (src/iot.py `add_alarm` builds one): reference, active flag,
optional timestamp. -/
structure Alarm where
  reference : String
  active : Bool
  timestamp : Option Int
deriving Repr, DecidableEq

/-- Actuator status model (src/iot.py `publish_actuator_status` builds one):
reference, state string (READY/BUSY/ERROR) and device-reported value. -/
structure ActuatorStatus where
  reference : String
  state : String
  value : Int
deriving Repr, DecidableEq

/-- Device model, from src/iot.py class `Device`: key, password and the list
of actuator references (Python default `None` and the empty list are both
falsy; both are modelled by the empty list). -/
structure Device where
  key : String
  password : String
  actuator_references : List String
deriving Repr, DecidableEq

/-- Modelled from the spec: `ZerynthMessageQueue` (the file
wolkabout/iot/wolk/zerynth_message_queue.py is not under src/).  Spec §4.1:
a bounded FIFO; `put` appends if length < capacity and reports success,
`peek` returns the oldest message without removing it, `get` removes and
returns the oldest message.  Messages are opaque encoded payloads, modelled
as naturals. -/
structure MessageQueue where
  capacity : Nat
  items : List Nat
deriving Repr, DecidableEq

/-- Modelled from the spec (§4.1): append if there is room, report success. -/
def MessageQueue.put (q : MessageQueue) (m : Nat) : MessageQueue × Bool :=
  if q.items.length < q.capacity then ({ q with items := q.items ++ [m] }, true)
  else (q, false)

/-- Modelled from the spec (§4.1): oldest message without removal. -/
def MessageQueue.peek (q : MessageQueue) : Option Nat :=
  q.items.head?

/-- Modelled from the spec (§4.1): remove and return the oldest message. -/
def MessageQueue.get (q : MessageQueue) : MessageQueue × Option Nat :=
  match q.items with
  | [] => (q, none)
  | m :: rest => ({ q with items := rest }, some m)

/-- The inbound codec collaborator (spec §6; the concrete deserializer is an
external collaborator of the core): classification predicates and parsers,
abstract functions over opaque messages. -/
structure MessageDeserializer where
  is_actuation_command : Nat → Bool
  is_configuration_command : Nat → Bool
  is_keep_alive_response : Nat → Bool
  parse_actuator_command : Nat → String × Int
  parse_configuration_command : Nat → Int
  parse_keep_alive_response : Nat → Int

/-- The outbound codec collaborator (spec §6): pure encoding functions from
domain objects to opaque messages. -/
structure MessageFactory where
  make_from_sensor_reading : SensorReading → Nat
  make_from_alarm : Alarm → Nat
  make_from_actuator_status : ActuatorStatus → Nat
  make_from_configuration : Int → Nat
  make_from_keep_alive_message : Nat

/-- Observable side effects of a connector operation: a device-handler
invocation, a transport publish attempt (with its boolean outcome), or a
buffer put attempt (with its acceptance flag). -/
inductive Event where
  | actuationCalled : String → Int → Event
  | configurationCalled : Int → Event
  | transportPublish : Nat → Bool → Event
  | bufferPut : Nat → Bool → Event
deriving Repr, DecidableEq

/-- The connector state, from src/iot.py class `Wolk.__init__`: codec
collaborators, the four optional device-supplied callbacks (handlers carry no
data, so presence is an `Option Unit`; providers are modelled as optional
functions), the keep-alive flag, the last platform timestamp and the
outbound message queue. -/
structure Wolk where
  message_deserializer : MessageDeserializer
  message_factory : MessageFactory
  actuation_handler : Option Unit
  actuator_status_provider : Option (String → String × Int)
  configuration_handler : Option Unit
  configuration_provider : Option (Unit → Int)
  keep_alive_enabled : Bool
  last_platform_timestamp : Option Int
  message_queue : MessageQueue

/-- Construction, from src/iot.py `Wolk.__init__` lines 78-97: all fields are
assigned (`last_platform_timestamp` starts as `None`, the queue starts empty
with the given capacity); construction raises `InterfaceNotProvided` when the
device declares actuator references but the actuation handler or the actuator
status provider is missing. -/
def wolkInit (device : Device) (d : MessageDeserializer) (f : MessageFactory)
    (actuation_handler : Option Unit)
    (actuator_status_provider : Option (String → String × Int))
    (configuration_handler : Option Unit)
    (configuration_provider : Option (Unit → Int))
    (message_queue_size : Nat) (keep_alive_enabled : Bool) : Except Unit Wolk :=
  if device.actuator_references ≠ [] ∧
      (actuation_handler.isNone ∨ actuator_status_provider.isNone) then
    Except.error ()
  else
    Except.ok
      { message_deserializer := d
        message_factory := f
        actuation_handler := actuation_handler
        actuator_status_provider := actuator_status_provider
        configuration_handler := configuration_handler
        configuration_provider := configuration_provider
        keep_alive_enabled := keep_alive_enabled
        last_platform_timestamp := none
        message_queue := { capacity := message_queue_size, items := [] } }

/-- From src/iot.py `add_sensor_reading` lines 118-131: build a reading,
encode it, and put it into the queue (the put result is ignored by the
source; it is recorded in the trace). -/
def add_sensor_reading (w : Wolk) (reference : String) (value : Int)
    (timestamp : Option Int) : Wolk × List Event :=
  let reading : SensorReading := { reference := reference, value := value, timestamp := timestamp }
  let message := w.message_factory.make_from_sensor_reading reading
  let q := w.message_queue.put message
  ({ w with message_queue := q.1 }, [Event.bufferPut message q.2])

/-- From src/iot.py `add_alarm` lines 133-146: build an alarm event, encode
it, and put it into the queue. -/
def add_alarm (w : Wolk) (reference : String) (active : Bool)
    (timestamp : Option Int) : Wolk × List Event :=
  let alarm_event : Alarm := { reference := reference, active := active, timestamp := timestamp }
  let message := w.message_factory.make_from_alarm alarm_event
  let q := w.message_queue.put message
  ({ w with message_queue := q.1 }, [Event.bufferPut message q.2])

/-- Outcome of one iteration of the `while True` loop in src/iot.py
`publish` lines 148-155. -/
inductive StepOut where
  | done : MessageQueue → List (Nat × Bool) → StepOut
  | next : Nat → MessageQueue → List (Nat × Bool) → StepOut
deriving Repr, DecidableEq

/-- One iteration of the drain loop, from src/iot.py `publish` lines 150-155:
peek the queue; if empty, exit the loop; otherwise attempt a transport
publish (the k-th call's outcome is `o k`) and remove the message only when
the publish returned `True`.  Note the source has no `else: break`: on a
failed publish the loop continues with the queue unchanged. -/
def drainStep (o : Nat → Bool) (k : Nat) (q : MessageQueue)
    (calls : List (Nat × Bool)) : StepOut :=
  match q.peek with
  | none => StepOut.done q calls
  | some m =>
    if o k then StepOut.next (k + 1) (q.get).1 (calls ++ [(m, true)])
    else StepOut.next (k + 1) q (calls ++ [(m, false)])

/-- The drain loop of src/iot.py `publish` lines 148-155, iterated with
explicit fuel: `none` means the loop has not exited within `fuel`
iterations.  `k` is the index of the next transport publish call and `calls`
accumulates every publish attempt with its outcome. -/
def publishDrain (o : Nat → Bool) :
    Nat → Nat → MessageQueue → List (Nat × Bool) →
      Option (MessageQueue × List (Nat × Bool))
  | 0, _, _, _ => none
  | fuel + 1, k, q, calls =>
    match drainStep o k q calls with
    | StepOut.done q2 cs => some (q2, cs)
    | StepOut.next k2 q2 cs => publishDrain o fuel k2 q2 cs

/-- src/iot.py `Wolk.publish`: drain the connector's own queue.  Returns the
updated connector and the trace of publish calls, or `none` when the loop
does not exit within `fuel` iterations. -/
def Wolk.publish (w : Wolk) (o : Nat → Bool) (fuel : Nat) :
    Option (Wolk × List (Nat × Bool)) :=
  match publishDrain o fuel 0 w.message_queue [] with
  | none => none
  | some (q, calls) => some ({ w with message_queue := q }, calls)

/-- From src/iot.py `publish_actuator_status` lines 157-172: if no actuator
status provider is registered, return silently; otherwise query the provider,
encode the status, attempt one immediate transport publish (outcome `tOk`),
and on failure put the encoded message into the queue. -/
def publish_actuator_status (w : Wolk) (reference : String) (tOk : Bool) :
    Wolk × List Event :=
  match w.actuator_status_provider with
  | none => (w, [])
  | some provider =>
    let sv := provider reference
    let status : ActuatorStatus := { reference := reference, state := sv.1, value := sv.2 }
    let message := w.message_factory.make_from_actuator_status status
    if tOk then (w, [Event.transportPublish message true])
    else
      let q := w.message_queue.put message
      ({ w with message_queue := q.1 },
        [Event.transportPublish message false, Event.bufferPut message q.2])

/-- From src/iot.py `publish_configuration` lines 174-182: if no
configuration handler is registered, return silently; otherwise call the
configuration provider (the source calls it without checking it, so a missing
provider is a runtime fault, modelled as `none`), encode the snapshot,
attempt one immediate transport publish, and on failure put the message into
the queue. -/
def publish_configuration (w : Wolk) (tOk : Bool) :
    Option (Wolk × List Event) :=
  match w.configuration_handler with
  | none => some (w, [])
  | some _ =>
    match w.configuration_provider with
    | none => none
    | some provider =>
      let configuration := provider ()
      let message := w.message_factory.make_from_configuration configuration
      if tOk then some (w, [Event.transportPublish message true])
      else
        let q := w.message_queue.put message
        some ({ w with message_queue := q.1 },
          [Event.transportPublish message false, Event.bufferPut message q.2])

/-- From src/iot.py `request_timestamp` lines 184-193: return the last
received platform timestamp. -/
def request_timestamp (w : Wolk) : Option Int :=
  w.last_platform_timestamp

/-- The four mutually exclusive classifications of an inbound message
(spec §4.3). -/
inductive MessageClass where
  | actuation
  | configuration
  | keepAlive
  | unknown
deriving Repr, DecidableEq

/-- The classification implicit in the if-chain of src/iot.py
`_on_inbound_message` lines 204-229: predicates evaluated in the fixed order
actuation, configuration, keep-alive; first match wins. -/
def classify (d : MessageDeserializer) (m : Nat) : MessageClass :=
  if d.is_actuation_command m then MessageClass.actuation
  else if d.is_configuration_command m then MessageClass.configuration
  else if d.is_keep_alive_response m then MessageClass.keepAlive
  else MessageClass.unknown

/-- From src/iot.py `_on_inbound_message` lines 195-229.  Actuation branch:
if the actuation handler or the actuator status provider is missing, return;
otherwise parse, invoke the handler with (reference, value), then publish the
actuator status for that reference.  Configuration branch: if the
configuration provider or handler is missing, return; otherwise parse, invoke
the handler, then publish the configuration.  Keep-alive branch: store the
parsed platform timestamp.  No match: do nothing.  `tOk` is the outcome of
the (at most one) transport publish the dispatch can trigger; `none` models a
runtime fault. -/
def on_inbound_message (w : Wolk) (m : Nat) (tOk : Bool) :
    Option (Wolk × List Event) :=
  if w.message_deserializer.is_actuation_command m then
    if w.actuation_handler.isNone || w.actuator_status_provider.isNone then
      some (w, [])
    else
      let rv := w.message_deserializer.parse_actuator_command m
      let r := publish_actuator_status w rv.1 tOk
      some (r.1, Event.actuationCalled rv.1 rv.2 :: r.2)
  else if w.message_deserializer.is_configuration_command m then
    if w.configuration_provider.isNone || w.configuration_handler.isNone then
      some (w, [])
    else
      let cfg := w.message_deserializer.parse_configuration_command m
      match publish_configuration w tOk with
      | none => none
      | some r => some (r.1, Event.configurationCalled cfg :: r.2)
  else if w.message_deserializer.is_keep_alive_response m then
    some ({ w with
            last_platform_timestamp :=
              some (w.message_deserializer.parse_keep_alive_response m) }, [])
  else
    some (w, [])

/-- A public connector operation together with the transport behaviour it
observes (a publish-outcome stream for a drain, a single publish outcome for
the side-effect paths, the inbound message and publish outcome for a
dispatch). -/
inductive Op where
  | addSensorReading : String → Int → Option Int → Op
  | addAlarm : String → Bool → Option Int → Op
  | publish : (Nat → Bool) → Nat → Op
  | publishActuatorStatus : String → Bool → Op
  | publishConfiguration : Bool → Op
  | inbound : Nat → Bool → Op

/-- Execute one public operation on the connector state; `none` models a
drain pass that does not exit within its fuel or a runtime fault. -/
def runOp (w : Wolk) : Op → Option Wolk
  | Op.addSensorReading r v t => some (add_sensor_reading w r v t).1
  | Op.addAlarm r a t => some (add_alarm w r a t).1
  | Op.publish o fuel => (Wolk.publish w o fuel).map Prod.fst
  | Op.publishActuatorStatus r tOk => some (publish_actuator_status w r tOk).1
  | Op.publishConfiguration tOk => (publish_configuration w tOk).map Prod.fst
  | Op.inbound m tOk => (on_inbound_message w m tOk).map Prod.fst

/-- Execute a sequence of public operations. -/
def run (w : Wolk) : List Op → Option Wolk
  | [] => some w
  | op :: ops =>
    match runOp w op with
    | none => none
    | some w2 => run w2 ops

/-- Number of successful outcomes among the `t` transport publish calls with
indices `k, k+1, …, k+t-1`. -/
def countTrue (o : Nat → Bool) (k : Nat) : Nat → Nat
  | 0 => 0
  | t + 1 => (if o k then 1 else 0) + countTrue o (k + 1) t

/-- The encoded actuator-status message for reference `r` when the registered
actuator status provider is `p` (spec §4.2/§6: query the provider, encode the
status). -/
def statusMessage (w : Wolk) (p : String → String × Int) (r : String) : Nat :=
  w.message_factory.make_from_actuator_status
    { reference := r, state := (p r).1, value := (p r).2 }

/-- The encoded configuration snapshot message when the registered
configuration provider is `cp` (spec §4.3 branch 2: queried fresh from the
provider). -/
def configMessage (w : Wolk) (cp : Unit → Int) : Nat :=
  w.message_factory.make_from_configuration (cp ())

/-- The optimistic side-effect outcome the spec describes (§4.2): exactly one
immediate transport publish attempt; on success the connector state is
unchanged, on failure the message is put into the outbound buffer. -/
def sideEffectOutcome (w : Wolk) (msg : Nat) (tOk : Bool) : Wolk × List Event :=
  if tOk then (w, [Event.transportPublish msg true])
  else
    ({ w with message_queue := (w.message_queue.put msg).1 },
      [Event.transportPublish msg false, Event.bufferPut msg (w.message_queue.put msg).2])

/-- The actuation-branch outcome the spec describes (§4.3 branch 1): the
actuation handler invoked exactly once with the parsed (reference, value),
then exactly one actuator-status publish attempt for that same reference via
the side-effect path. -/
def actuationOutcome (w : Wolk) (m : Nat) (tOk : Bool)
    (p : String → String × Int) : Wolk × List Event :=
  let rv := w.message_deserializer.parse_actuator_command m
  let se := sideEffectOutcome w (statusMessage w p rv.1) tOk
  (se.1, Event.actuationCalled rv.1 rv.2 :: se.2)

/-- Holds of an operation that is not the dispatch of a message classified as
a keep-alive response. -/
def noKeepAliveInbound (d : MessageDeserializer) : Op → Prop
  | Op.inbound m _ => classify d m ≠ MessageClass.keepAlive
  | _ => True

/-- A concrete deserializer for witnesses: messages 0-9 are actuation
commands, 10-19 configuration commands, 20-29 keep-alive responses. -/
def exDeserializer : MessageDeserializer :=
  { is_actuation_command := fun m => decide (m < 10)
    is_configuration_command := fun m => decide (10 ≤ m ∧ m < 20)
    is_keep_alive_response := fun m => decide (20 ≤ m ∧ m < 30)
    parse_actuator_command := fun m => ("ref", Int.ofNat m)
    parse_configuration_command := fun m => Int.ofNat m
    parse_keep_alive_response := fun m => Int.ofNat (m + 100) }

/-- A concrete factory for witnesses. -/
def exFactory : MessageFactory :=
  { make_from_sensor_reading := fun r => r.value.toNat
    make_from_alarm := fun a => if a.active then 1 else 0
    make_from_actuator_status := fun s => s.value.toNat + 1000
    make_from_configuration := fun c => c.toNat + 2000
    make_from_keep_alive_message := 3000 }

/-- A concrete actuator status provider for witnesses. -/
def exProvider (_ : String) : String × Int := ("READY", 7)

/-- A concrete configuration provider for witnesses. -/
def exConfigProvider (_ : Unit) : Int := 5

/-- A fully equipped concrete connector for witnesses. -/
def exWolk : Wolk :=
  { message_deserializer := exDeserializer
    message_factory := exFactory
    actuation_handler := some ()
    actuator_status_provider := some exProvider
    configuration_handler := some ()
    configuration_provider := some exConfigProvider
    keep_alive_enabled := true
    last_platform_timestamp := none
    message_queue := { capacity := 100, items := [] } }

/-- A concrete connector with keep-alive disabled and no collaborators. -/
def exWolkBare : Wolk :=
  { message_deserializer := exDeserializer
    message_factory := exFactory
    actuation_handler := none
    actuator_status_provider := none
    configuration_handler := none
    configuration_provider := none
    keep_alive_enabled := false
    last_platform_timestamp := none
    message_queue := { capacity := 2, items := [] } }

/-! ## Drain-loop lemmas -/

/-- The drain loop exits as soon as the queue is empty. -/
theorem publishDrain_nil (o : Nat → Bool) (fuel k c : Nat) (cs : List (Nat × Bool)) :
    publishDrain o (fuel + 1) k ⟨c, []⟩ cs = some (⟨c, []⟩, cs) := by
  conv_lhs => rw [publishDrain]
  simp [drainStep, MessageQueue.peek]

/-- One iteration with a successful publish removes the head of the queue. -/
theorem publishDrain_succ_true (o : Nat → Bool) (fuel k c m : Nat) (rest : List Nat)
    (cs : List (Nat × Bool)) (hk : o k = true) :
    publishDrain o (fuel + 1) k ⟨c, m :: rest⟩ cs =
      publishDrain o fuel (k + 1) ⟨c, rest⟩ (cs ++ [(m, true)]) := by
  conv_lhs => rw [publishDrain]
  simp [drainStep, MessageQueue.peek, MessageQueue.get, hk]

/-- One iteration with a failed publish leaves the queue unchanged and the
loop running. -/
theorem publishDrain_succ_false (o : Nat → Bool) (fuel k c m : Nat) (rest : List Nat)
    (cs : List (Nat × Bool)) (hk : o k = false) :
    publishDrain o (fuel + 1) k ⟨c, m :: rest⟩ cs =
      publishDrain o fuel (k + 1) ⟨c, m :: rest⟩ (cs ++ [(m, false)]) := by
  conv_lhs => rw [publishDrain]
  simp [drainStep, MessageQueue.peek, hk]

/-- With an all-success transport the drain consumes the whole queue, one
successful publish call per message, in order. -/
theorem publishDrain_allTrue (q : MessageQueue) (k : Nat) (cs : List (Nat × Bool)) :
    publishDrain (fun _ => true) (q.items.length + 1) k q cs =
      some ({ q with items := [] }, cs ++ q.items.map (fun m => (m, true))) := by
  obtain ⟨c, l⟩ := q
  induction l generalizing k cs with
  | nil => simpa using publishDrain_nil (fun _ => true) 0 k c cs
  | cons m rest ih =>
    have h1 : publishDrain (fun _ => true) (rest.length + 1 + 1) k ⟨c, m :: rest⟩ cs =
        publishDrain (fun _ => true) (rest.length + 1) (k + 1) ⟨c, rest⟩ (cs ++ [(m, true)]) :=
      publishDrain_succ_true (fun _ => true) (rest.length + 1) k c m rest cs rfl
    have h2 := ih (k + 1) (cs ++ [(m, true)])
    simp only [List.length_cons]
    rw [h1]
    simp only [MessageQueue.mk.injEq] at h2 ⊢
    rw [h2]
    simp

/-- With an always-failing transport a non-empty queue never drains: the loop
does not exit within any amount of fuel. -/
theorem publishDrain_allFalse (c m : Nat) (rest : List Nat) (fuel : Nat) :
    ∀ (k : Nat) (cs : List (Nat × Bool)),
      publishDrain (fun _ => false) fuel k ⟨c, m :: rest⟩ cs = none := by
  induction fuel with
  | zero => intro k cs; rfl
  | succ f ih =>
    intro k cs
    rw [publishDrain_succ_false (fun _ => false) f k c m rest cs rfl]
    exact ih (k + 1) (cs ++ [(m, false)])

/-- If the transport succeeds at least as often as there are queued messages,
the drain loop exits. -/
theorem publishDrain_enough_successes (o : Nat → Bool) (t : Nat) :
    ∀ (k : Nat) (q : MessageQueue) (cs : List (Nat × Bool)),
      q.items.length ≤ countTrue o k t →
      ∃ r, publishDrain o (t + 1) k q cs = some r := by
  induction t with
  | zero =>
    intro k q cs h
    obtain ⟨c, l⟩ := q
    have hl : l = [] := List.eq_nil_of_length_eq_zero (Nat.le_zero.mp h)
    subst hl
    exact ⟨(⟨c, []⟩, cs), publishDrain_nil o 0 k c cs⟩
  | succ t ih =>
    intro k q cs h
    obtain ⟨c, l⟩ := q
    match l with
    | [] => exact ⟨(⟨c, []⟩, cs), publishDrain_nil o (t + 1) k c cs⟩
    | m :: rest =>
      simp only [countTrue] at h
      by_cases hk : o k
      · have h2 : rest.length ≤ countTrue o (k + 1) t := by
          simp only [hk, if_true] at h
          simp only [List.length_cons] at h
          omega
        obtain ⟨r, hr⟩ := ih (k + 1) ⟨c, rest⟩ (cs ++ [(m, true)]) h2
        exact ⟨r, by rw [publishDrain_succ_true o (t + 1) k c m rest cs hk]; exact hr⟩
      · have hk2 : o k = false := by simpa using hk
        have h2 : (m :: rest).length ≤ countTrue o (k + 1) t := by
          simp only [hk2, Bool.false_eq_true, if_false] at h
          omega
        obtain ⟨r, hr⟩ := ih (k + 1) ⟨c, m :: rest⟩ (cs ++ [(m, false)]) h2
        exact ⟨r, by rw [publishDrain_succ_false o (t + 1) k c m rest cs hk2]; exact hr⟩

/-! ## C1, C2, C3: the drain loop -/

/-- C3: for every buffer content, if the transport publish succeeds on every
call, then after publish() returns the buffer is empty and the transport
received exactly the buffered messages, each exactly once, in the order they
were enqueued (the call trace is one successful call per buffered message, in
enqueue order). -/
theorem C3_drain_all_success (w : Wolk) :
    Wolk.publish w (fun _ => true) (w.message_queue.items.length + 1) =
      some ({ w with message_queue := { w.message_queue with items := [] } },
        w.message_queue.items.map (fun m => (m, true))) := by
  unfold Wolk.publish
  rw [publishDrain_allTrue w.message_queue 0 []]
  simp

/-- C1 (counterexample): for the buffer [10, 20] and a transport whose first
publish call fails while all later ones succeed, the drain does not stop at
the failed call: it makes three publish calls in total (retrying the head)
and ends with an empty buffer, not with both messages retained. -/
theorem C1_counterexample :
    (Wolk.publish { exWolkBare with message_queue := ⟨2, [10, 20]⟩ }
        (fun k => decide (k ≠ 0)) 4).map (fun p => (p.1.message_queue.items, p.2)) =
      some ([], [(10, false), (10, true), (20, true)]) ∧
    ([] : List Nat) ≠ [10, 20] ∧
    [(10, false), (10, true), (20, true)] ≠ [((10 : Nat), false)] :=
  ⟨by decide, by decide, by decide⟩

/-- C1 (amended): when the k-th publish call of a drain fails, the failed
message remains at the head of the buffer and the buffer is left exactly as
it was — no message is skipped or reordered — but the drain does not stop:
the loop immediately continues with the next publish call, retrying that same
head message. -/
theorem C1_amended_failure_keeps_head (o : Nat → Bool) (fuel k : Nat)
    (q : MessageQueue) (m : Nat) (cs : List (Nat × Bool))
    (hm : q.peek = some m) (hk : o k = false) :
    drainStep o k q cs = StepOut.next (k + 1) q (cs ++ [(m, false)]) ∧
    publishDrain o (fuel + 1) k q cs =
      publishDrain o fuel (k + 1) q (cs ++ [(m, false)]) := by
  have hstep : drainStep o k q cs = StepOut.next (k + 1) q (cs ++ [(m, false)]) := by
    unfold drainStep
    rw [hm]
    simp [hk]
  refine ⟨hstep, ?_⟩
  conv_lhs => rw [publishDrain]
  rw [hstep]

/-- Witness for the amended C1 at a concrete failing call. -/
theorem C1_amended_witness :
    (⟨2, [10, 20]⟩ : MessageQueue).peek = some 10 ∧
    (fun _ : Nat => false) 0 = false ∧
    (drainStep (fun _ => false) 0 ⟨2, [10, 20]⟩ [] =
        StepOut.next 1 ⟨2, [10, 20]⟩ ([] ++ [(10, false)]) ∧
      publishDrain (fun _ => false) (0 + 1) 0 ⟨2, [10, 20]⟩ [] =
        publishDrain (fun _ => false) 0 1 ⟨2, [10, 20]⟩ ([] ++ [(10, false)])) :=
  ⟨rfl, rfl, C1_amended_failure_keeps_head (fun _ => false) 0 0 ⟨2, [10, 20]⟩ 10 [] rfl rfl⟩

/-- C2 (counterexample): a single publish() invocation with an always-failing
transport and a non-empty buffer never returns — the loop exits within no
amount of fuel. -/
theorem C2_counterexample :
    ¬ ∃ (fuel : Nat) (r : Wolk × List (Nat × Bool)),
        Wolk.publish { exWolkBare with message_queue := ⟨2, [5]⟩ }
          (fun _ => false) fuel = some r := by
  rintro ⟨fuel, r, hr⟩
  unfold Wolk.publish at hr
  rw [show ({ exWolkBare with message_queue := ⟨2, [5]⟩ } : Wolk).message_queue =
      ⟨2, [5]⟩ from rfl] at hr
  rw [publishDrain_allFalse 2 5 [] fuel 0 []] at hr
  simp at hr

/-- C2 (amended): a single publish() invocation terminates whenever the
transport outcome sequence offers at least as many successes as there are
buffered messages; it does not terminate for an always-failing transport with
a non-empty buffer, so termination holds under this success condition rather
than for every transport behaviour. -/
theorem C2_amended_termination (w : Wolk) (o : Nat → Bool) (t : Nat)
    (h : w.message_queue.items.length ≤ countTrue o 0 t) :
    ∃ r, Wolk.publish w o (t + 1) = some r := by
  obtain ⟨r, hr⟩ := publishDrain_enough_successes o t 0 w.message_queue [] h
  obtain ⟨q, calls⟩ := r
  refine ⟨({ w with message_queue := q }, calls), ?_⟩
  unfold Wolk.publish
  rw [hr]

/-- Witness for the amended C2: two buffered messages, an all-success
transport, fuel three. -/
theorem C2_amended_witness :
    ({ exWolkBare with message_queue := ⟨2, [5, 6]⟩ } : Wolk).message_queue.items.length ≤
        countTrue (fun _ => true) 0 2 ∧
    ∃ r, Wolk.publish { exWolkBare with message_queue := ⟨2, [5, 6]⟩ }
        (fun _ => true) (2 + 1) = some r :=
  ⟨by decide, C2_amended_termination _ _ 2 (by decide)⟩

/-! ## C4, C5, C6: dispatcher classification, actuation branch, construction -/

/-- C4: for every inbound message exactly one of the four classifications
fires; the predicates are evaluated in the fixed order actuation, then
configuration, then keep-alive, and the first match wins (each classification
holds exactly when its predicate is the first to match); a message matching
none of the three causes no handler invocation, no publish, no buffer change
and no error (the dispatch returns the unchanged state, an empty trace and no
fault). -/
theorem C4_classification_order (w : Wolk) (m : Nat) (tOk : Bool) :
    (classify w.message_deserializer m = MessageClass.actuation ↔
      w.message_deserializer.is_actuation_command m = true) ∧
    (classify w.message_deserializer m = MessageClass.configuration ↔
      w.message_deserializer.is_actuation_command m = false ∧
        w.message_deserializer.is_configuration_command m = true) ∧
    (classify w.message_deserializer m = MessageClass.keepAlive ↔
      w.message_deserializer.is_actuation_command m = false ∧
        w.message_deserializer.is_configuration_command m = false ∧
        w.message_deserializer.is_keep_alive_response m = true) ∧
    (classify w.message_deserializer m = MessageClass.unknown ↔
      w.message_deserializer.is_actuation_command m = false ∧
        w.message_deserializer.is_configuration_command m = false ∧
        w.message_deserializer.is_keep_alive_response m = false) ∧
    (classify w.message_deserializer m = MessageClass.unknown →
      on_inbound_message w m tOk = some (w, [])) := by
  cases h1 : w.message_deserializer.is_actuation_command m <;>
    cases h2 : w.message_deserializer.is_configuration_command m <;>
      cases h3 : w.message_deserializer.is_keep_alive_response m <;>
        simp [classify, on_inbound_message, h1, h2, h3]

/-- C5: for every inbound message matching the actuation-command predicate,
if both an actuation handler and an actuator-status provider are registered
the dispatch invokes the handler exactly once with the parsed (reference,
value) and then makes exactly one actuator-status publish attempt for that
same reference; if either collaborator is absent the message is silently
ignored: no handler call, no response, no state change. -/
theorem C5_actuation_dispatch (w : Wolk) (m : Nat) (tOk : Bool)
    (hact : w.message_deserializer.is_actuation_command m = true) :
    (∀ p, w.actuation_handler = some () → w.actuator_status_provider = some p →
      on_inbound_message w m tOk = some (actuationOutcome w m tOk p)) ∧
    ((w.actuation_handler = none ∨ w.actuator_status_provider = none) →
      on_inbound_message w m tOk = some (w, [])) := by
  constructor
  · intro p hh hp
    simp only [on_inbound_message, hact, if_true]
    simp only [hh, hp, Option.isNone_some, Bool.or_self, Bool.false_eq_true, if_false]
    simp [publish_actuator_status, hp, actuationOutcome, sideEffectOutcome, statusMessage]
  · rintro (hh | hp)
    · simp [on_inbound_message, hact, hh]
    · simp [on_inbound_message, hact, hp]

/-- Witness for C5 at a concrete actuation command (message 3) with the fully
equipped connector, on a failing transport. -/
theorem C5_witness :
    exWolk.message_deserializer.is_actuation_command 3 = true ∧
    ((∀ p, exWolk.actuation_handler = some () → exWolk.actuator_status_provider = some p →
        on_inbound_message exWolk 3 false = some (actuationOutcome exWolk 3 false p)) ∧
      ((exWolk.actuation_handler = none ∨ exWolk.actuator_status_provider = none) →
        on_inbound_message exWolk 3 false = some (exWolk, []))) :=
  ⟨rfl, C5_actuation_dispatch exWolk 3 false rfl⟩

/-- C6: construction fails with the configuration error exactly in the
claimed cases: it raises whenever the device's actuator-reference set is
non-empty and the actuation handler or the actuator-status provider is
missing, and it succeeds when the actuator-reference set is non-empty and
both the handler and the provider are present. -/
theorem C6_construction_guard (device : Device) (d : MessageDeserializer)
    (f : MessageFactory) (ah ch : Option Unit)
    (asp : Option (String → String × Int)) (cp : Option (Unit → Int))
    (n : Nat) (ka : Bool) :
    (device.actuator_references ≠ [] → (ah = none ∨ asp = none) →
      wolkInit device d f ah asp ch cp n ka = Except.error ()) ∧
    (device.actuator_references ≠ [] → ah ≠ none → asp ≠ none →
      ∃ w, wolkInit device d f ah asp ch cp n ka = Except.ok w) := by
  constructor
  · intro h1 h2
    unfold wolkInit
    rw [if_pos]
    exact ⟨h1, by rcases h2 with h | h <;> simp [h]⟩
  · intro h1 h2 h3
    cases ah with
    | none => exact absurd rfl h2
    | some u =>
      cases asp with
      | none => exact absurd rfl h3
      | some p =>
        refine ⟨⟨d, f, some u, some p, ch, cp, ka, none, ⟨n, []⟩⟩, ?_⟩
        unfold wolkInit
        rw [if_neg]
        simp

/-! ## Field-preservation lemmas -/

/-- The actuator-status side-effect path touches only the message queue. -/
theorem publish_actuator_status_fields (w : Wolk) (r : String) (tOk : Bool) :
    (publish_actuator_status w r tOk).1.last_platform_timestamp = w.last_platform_timestamp ∧
    (publish_actuator_status w r tOk).1.message_deserializer = w.message_deserializer := by
  unfold publish_actuator_status
  cases hp : w.actuator_status_provider <;> cases tOk <;> simp

/-- The configuration side-effect path touches only the message queue. -/
theorem publish_configuration_fields (w : Wolk) (tOk : Bool) (r : Wolk × List Event)
    (h : publish_configuration w tOk = some r) :
    r.1.last_platform_timestamp = w.last_platform_timestamp ∧
    r.1.message_deserializer = w.message_deserializer := by
  cases hh : w.configuration_handler with
  | none =>
    simp only [publish_configuration, hh, Option.some.injEq] at h
    subst h
    exact ⟨rfl, rfl⟩
  | some u =>
    cases hp : w.configuration_provider with
    | none => simp [publish_configuration, hh, hp] at h
    | some cp =>
      cases tOk <;>
        · simp only [publish_configuration, hh, hp, if_true, if_false,
            Bool.false_eq_true, Option.some.injEq] at h
          subst h
          exact ⟨rfl, rfl⟩

/-- A returning drain pass touches only the message queue. -/
theorem publish_pass_fields (w : Wolk) (o : Nat → Bool) (fuel : Nat)
    (r : Wolk × List (Nat × Bool)) (h : Wolk.publish w o fuel = some r) :
    r.1.last_platform_timestamp = w.last_platform_timestamp ∧
    r.1.message_deserializer = w.message_deserializer := by
  unfold Wolk.publish at h
  cases hd : publishDrain o fuel 0 w.message_queue [] with
  | none => rw [hd] at h; exact absurd h (by simp)
  | some qr =>
    rw [hd] at h
    obtain ⟨q, calls⟩ := qr
    simp only [Option.some.injEq] at h
    subst h
    exact ⟨rfl, rfl⟩

/-- A dispatched message classified as a keep-alive response stores the
parsed platform timestamp and does nothing else. -/
theorem on_inbound_message_keepAlive (w : Wolk) (m : Nat) (tOk : Bool)
    (h : classify w.message_deserializer m = MessageClass.keepAlive) :
    on_inbound_message w m tOk =
      some ({ w with
              last_platform_timestamp :=
                some (w.message_deserializer.parse_keep_alive_response m) }, []) := by
  cases h1 : w.message_deserializer.is_actuation_command m <;>
    cases h2 : w.message_deserializer.is_configuration_command m <;>
      cases h3 : w.message_deserializer.is_keep_alive_response m <;>
        simp [classify, h1, h2, h3] at h <;>
          simp [on_inbound_message, h1, h2, h3]

/-- A dispatch preserves the deserializer, and preserves the timestamp unless
the message is classified as a keep-alive response. -/
theorem on_inbound_message_fields (w : Wolk) (m : Nat) (tOk : Bool)
    (r : Wolk × List Event) (h : on_inbound_message w m tOk = some r) :
    r.1.message_deserializer = w.message_deserializer ∧
    (classify w.message_deserializer m ≠ MessageClass.keepAlive →
      r.1.last_platform_timestamp = w.last_platform_timestamp) := by
  unfold on_inbound_message at h
  cases h1 : w.message_deserializer.is_actuation_command m with
  | true =>
    rw [h1] at h
    simp only [if_true] at h
    by_cases hg : (w.actuation_handler.isNone || w.actuator_status_provider.isNone) = true
    · rw [if_pos hg] at h
      simp only [Option.some.injEq] at h
      subst h
      exact ⟨rfl, fun _ => rfl⟩
    · rw [if_neg hg] at h
      simp only [Option.some.injEq] at h
      subst h
      obtain ⟨hl, hd⟩ := publish_actuator_status_fields w
        (w.message_deserializer.parse_actuator_command m).1 tOk
      exact ⟨hd, fun _ => hl⟩
  | false =>
    rw [h1] at h
    simp only [Bool.false_eq_true, if_false] at h
    cases h2 : w.message_deserializer.is_configuration_command m with
    | true =>
      rw [h2] at h
      simp only [if_true] at h
      by_cases hg : (w.configuration_provider.isNone || w.configuration_handler.isNone) = true
      · rw [if_pos hg] at h
        simp only [Option.some.injEq] at h
        subst h
        exact ⟨rfl, fun _ => rfl⟩
      · rw [if_neg hg] at h
        cases hc : publish_configuration w tOk with
        | none => rw [hc] at h; exact absurd h (by simp)
        | some pr =>
          rw [hc] at h
          simp only [Option.some.injEq] at h
          subst h
          obtain ⟨hl, hd⟩ := publish_configuration_fields w tOk pr hc
          exact ⟨hd, fun _ => hl⟩
    | false =>
      rw [h2] at h
      simp only [Bool.false_eq_true, if_false] at h
      cases h3 : w.message_deserializer.is_keep_alive_response m with
      | true =>
        rw [h3] at h
        simp only [if_true, Option.some.injEq] at h
        subst h
        refine ⟨rfl, fun hc => absurd ?_ hc⟩
        simp [classify, h1, h2, h3]
      | false =>
        rw [h3] at h
        simp only [Bool.false_eq_true, if_false, Option.some.injEq] at h
        subst h
        exact ⟨rfl, fun _ => rfl⟩

/-- A successfully constructed connector starts with no platform timestamp. -/
theorem wolkInit_timestamp (device : Device) (d : MessageDeserializer)
    (f : MessageFactory) (ah ch : Option Unit)
    (asp : Option (String → String × Int)) (cp : Option (Unit → Int))
    (n : Nat) (ka : Bool) (w0 : Wolk)
    (h : wolkInit device d f ah asp ch cp n ka = Except.ok w0) :
    w0.last_platform_timestamp = none := by
  unfold wolkInit at h
  split at h
  · exact absurd h (by simp)
  · simp only [Except.ok.injEq] at h
    subst h
    rfl

/-- One public operation preserves the deserializer, and preserves the
timestamp unless it dispatches a keep-alive-classified message. -/
theorem runOp_fields (w : Wolk) (op : Op) (w2 : Wolk) (h : runOp w op = some w2) :
    w2.message_deserializer = w.message_deserializer ∧
    (noKeepAliveInbound w.message_deserializer op →
      w2.last_platform_timestamp = w.last_platform_timestamp) := by
  cases op with
  | addSensorReading r v t =>
    simp only [runOp, Option.some.injEq] at h
    subst h
    exact ⟨rfl, fun _ => rfl⟩
  | addAlarm r a t =>
    simp only [runOp, Option.some.injEq] at h
    subst h
    exact ⟨rfl, fun _ => rfl⟩
  | publish o fuel =>
    simp only [runOp] at h
    cases hp : Wolk.publish w o fuel with
    | none => rw [hp] at h; exact absurd h (by simp)
    | some r =>
      rw [hp] at h
      simp only [Option.map_some', Option.some.injEq] at h
      subst h
      obtain ⟨hl, hd⟩ := publish_pass_fields w o fuel r hp
      exact ⟨hd, fun _ => hl⟩
  | publishActuatorStatus r tOk =>
    simp only [runOp, Option.some.injEq] at h
    subst h
    obtain ⟨hl, hd⟩ := publish_actuator_status_fields w r tOk
    exact ⟨hd, fun _ => hl⟩
  | publishConfiguration tOk =>
    simp only [runOp] at h
    cases hc : publish_configuration w tOk with
    | none => rw [hc] at h; exact absurd h (by simp)
    | some r =>
      rw [hc] at h
      simp only [Option.map_some', Option.some.injEq] at h
      subst h
      obtain ⟨hl, hd⟩ := publish_configuration_fields w tOk r hc
      exact ⟨hd, fun _ => hl⟩
  | inbound m tOk =>
    simp only [runOp] at h
    cases hi : on_inbound_message w m tOk with
    | none => rw [hi] at h; exact absurd h (by simp)
    | some r =>
      rw [hi] at h
      simp only [Option.map_some', Option.some.injEq] at h
      subst h
      obtain ⟨hd, hl⟩ := on_inbound_message_fields w m tOk r hi
      exact ⟨hd, fun hop => hl hop⟩

/-- Along any run that never dispatches a keep-alive-classified message, a
`none` timestamp stays `none`. -/
theorem run_timestamp_none (ops : List Op) :
    ∀ w w2 : Wolk, w.last_platform_timestamp = none →
      (∀ op ∈ ops, noKeepAliveInbound w.message_deserializer op) →
      run w ops = some w2 → w2.last_platform_timestamp = none := by
  induction ops with
  | nil =>
    intro w w2 h0 _ hr
    simp only [run, Option.some.injEq] at hr
    subst hr
    exact h0
  | cons op ops ih =>
    intro w w2 h0 hops hr
    simp only [run] at hr
    cases ho : runOp w op with
    | none => rw [ho] at hr; exact absurd hr (by simp)
    | some w1 =>
      rw [ho] at hr
      obtain ⟨hd, hl⟩ := runOp_fields w op w1 ho
      refine ih w1 w2 ?_ ?_ hr
      · rw [hl (hops op (by simp))]
        exact h0
      · intro op2 hmem
        rw [hd]
        exact hops op2 (by simp [hmem])

/-! ## C7, C8, C9, C10 -/

/-- C7: the last-platform-timestamp state is none from construction; it is
written only by the dispatcher's keep-alive branch — adding readings or
alarms, a drain pass, both side-effect publishers and every dispatch of a
message not classified as a keep-alive response leave it unchanged — each
keep-alive-classified message overwrites it with the parsed platform
timestamp, and request_timestamp returns exactly its current value. -/
theorem C7_timestamp_lifecycle (w : Wolk) (m : Nat) (tOk : Bool) :
    (∀ device d f ah asp ch cp n ka w0,
      wolkInit device d f ah asp ch cp n ka = Except.ok w0 →
        w0.last_platform_timestamp = none) ∧
    request_timestamp w = w.last_platform_timestamp ∧
    (∀ r v t,
      (add_sensor_reading w r v t).1.last_platform_timestamp = w.last_platform_timestamp) ∧
    (∀ r a t,
      (add_alarm w r a t).1.last_platform_timestamp = w.last_platform_timestamp) ∧
    (∀ o fuel r, Wolk.publish w o fuel = some r →
      r.1.last_platform_timestamp = w.last_platform_timestamp) ∧
    (∀ r tOk2,
      (publish_actuator_status w r tOk2).1.last_platform_timestamp = w.last_platform_timestamp) ∧
    (∀ tOk2 r, publish_configuration w tOk2 = some r →
      r.1.last_platform_timestamp = w.last_platform_timestamp) ∧
    (classify w.message_deserializer m = MessageClass.keepAlive →
      on_inbound_message w m tOk =
        some ({ w with
                last_platform_timestamp :=
                  some (w.message_deserializer.parse_keep_alive_response m) }, [])) ∧
    (∀ r, classify w.message_deserializer m ≠ MessageClass.keepAlive →
      on_inbound_message w m tOk = some r →
      r.1.last_platform_timestamp = w.last_platform_timestamp) := by
  refine ⟨?_, rfl, fun r v t => rfl, fun r a t => rfl, ?_, ?_, ?_, ?_, ?_⟩
  · intro device d f ah asp ch cp n ka w0 h
    exact wolkInit_timestamp device d f ah ch asp cp n ka w0 h
  · intro o fuel r h
    exact (publish_pass_fields w o fuel r h).1
  · intro r tOk2
    exact (publish_actuator_status_fields w r tOk2).1
  · intro tOk2 r h
    exact (publish_configuration_fields w tOk2 r h).1
  · intro h
    exact on_inbound_message_keepAlive w m tOk h
  · intro r hc h
    exact (on_inbound_message_fields w m tOk r h).2 hc

/-- C8: with their collaborators registered, publish_actuator_status and
publish_configuration each make exactly one immediate transport publish
attempt and put the encoded message into the outbound buffer exactly when
that immediate publish fails, leaving the buffer unchanged on success (the
optimistic side-effect outcome). -/
theorem C8_side_effect_publishers (w : Wolk) (r : String) (tOk : Bool)
    (p : String → String × Int) (cp : Unit → Int)
    (hp : w.actuator_status_provider = some p)
    (hch : w.configuration_handler = some ())
    (hcp : w.configuration_provider = some cp) :
    publish_actuator_status w r tOk = sideEffectOutcome w (statusMessage w p r) tOk ∧
    publish_configuration w tOk = some (sideEffectOutcome w (configMessage w cp) tOk) := by
  constructor
  · cases tOk <;>
      simp [publish_actuator_status, hp, sideEffectOutcome, statusMessage]
  · cases tOk <;>
      simp [publish_configuration, hch, hcp, sideEffectOutcome, configMessage]

/-- Witness for C8 with the fully equipped connector on a failing transport. -/
theorem C8_witness :
    exWolk.actuator_status_provider = some exProvider ∧
    exWolk.configuration_handler = some () ∧
    exWolk.configuration_provider = some exConfigProvider ∧
    (publish_actuator_status exWolk "a" false =
        sideEffectOutcome exWolk (statusMessage exWolk exProvider "a") false ∧
      publish_configuration exWolk false =
        some (sideEffectOutcome exWolk (configMessage exWolk exConfigProvider) false)) :=
  ⟨rfl, rfl, rfl,
    C8_side_effect_publishers exWolk "a" false exProvider exConfigProvider rfl rfl rfl⟩

/-- C9 (counterexample): with keep-alive disabled at construction, delivering
an inbound message classified as a keep-alive response still updates the
timestamp, so request_timestamp returns a value instead of none. -/
theorem C9_counterexample :
    exWolkBare.keep_alive_enabled = false ∧
    request_timestamp exWolkBare = none ∧
    (on_inbound_message exWolkBare 25 true).map (fun r => request_timestamp r.1) =
      some (some 125) ∧
    some (125 : Int) ≠ none :=
  ⟨rfl, rfl, rfl, by decide⟩

/-- C9 (amended): if keep-alive is disabled and no inbound message classified
as a keep-alive response is delivered to the dispatcher, request_timestamp
returns none at every point of the execution; the dispatcher's keep-alive
branch does not consult the keep-alive flag, so only the absence of
keep-alive-classified inbound messages — not the flag — keeps the timestamp
at none. -/
theorem C9_amended_no_keep_alive_inbound (w w2 : Wolk) (ops : List Op)
    (hka : w.keep_alive_enabled = false)
    (h0 : w.last_platform_timestamp = none)
    (hops : ∀ op ∈ ops, noKeepAliveInbound w.message_deserializer op)
    (hrun : run w ops = some w2) :
    request_timestamp w2 = none := by
  unfold request_timestamp
  exact run_timestamp_none ops w w2 h0 hops hrun

/-- Witness for the amended C9: a dispatch of an actuation-classified message
on the bare connector leaves the timestamp at none. -/
theorem C9_amended_witness :
    exWolkBare.keep_alive_enabled = false ∧
    exWolkBare.last_platform_timestamp = none ∧
    (∀ op ∈ [Op.inbound 3 true], noKeepAliveInbound exWolkBare.message_deserializer op) ∧
    run exWolkBare [Op.inbound 3 true] = some exWolkBare ∧
    request_timestamp exWolkBare = none := by
  have hops : ∀ op ∈ [Op.inbound 3 true],
      noKeepAliveInbound exWolkBare.message_deserializer op := by
    intro op hop
    simp only [List.mem_singleton] at hop
    subst hop
    show classify exWolkBare.message_deserializer 3 ≠ MessageClass.keepAlive
    decide
  have hrun : run exWolkBare [Op.inbound 3 true] = some exWolkBare := rfl
  exact ⟨rfl, rfl, hops, hrun,
    C9_amended_no_keep_alive_inbound exWolkBare exWolkBare [Op.inbound 3 true] rfl rfl hops hrun⟩

/-- C10: publish_configuration is a silent no-op exactly when the
configuration handler is none; when the handler is present the configuration
provider is dereferenced unconditionally — its absence faults instead of
making the call a no-op — and the call is fault-free (with one publish
attempt) exactly under the precondition that the provider is present whenever
the handler is. -/
theorem C10_configuration_guard (w : Wolk) (tOk : Bool) :
    (publish_configuration w tOk = some (w, []) ↔ w.configuration_handler = none) ∧
    (w.configuration_handler = some () → w.configuration_provider = none →
      publish_configuration w tOk = none) ∧
    (∀ cp, w.configuration_handler = some () → w.configuration_provider = some cp →
      publish_configuration w tOk = some (sideEffectOutcome w (configMessage w cp) tOk) ∧
        (sideEffectOutcome w (configMessage w cp) tOk).2 ≠ []) := by
  refine ⟨?_, ?_, ?_⟩
  · constructor
    · intro h
      cases hh : w.configuration_handler with
      | none => rfl
      | some u =>
        exfalso
        cases hp : w.configuration_provider with
        | none => simp [publish_configuration, hh, hp] at h
        | some cp =>
          unfold publish_configuration at h
          rw [hh, hp] at h
          cases tOk <;> simp at h
    · intro h
      unfold publish_configuration
      rw [h]
  · intro hh hp
    unfold publish_configuration
    rw [hh, hp]
  · intro cp hh hp
    refine ⟨?_, ?_⟩
    · cases tOk <;>
        simp [publish_configuration, hh, hp, sideEffectOutcome, configMessage]
    · cases tOk <;> simp [sideEffectOutcome]

end WolkIoT
